import Mathlib

/-!
Verification of the drug-recommendation service (server-klinik).

The repository's core is `DrugPredictor` (src/models/drug_predictor.py): an
initialization state machine that loads a sentence-embedding model, loads and
deduplicates a drug catalog from CSV, encodes every catalog row, and then
serves cosine-similarity top-k predictions; plus the thin request layer
(src/services/api_service.py) and configuration (src/config.py).

This file shallowly embeds that code. Library collaborators that are not part
of the repository (the sentence-transformers encoder, numpy and sklearn's
cosine_similarity, the Hugging Face login, the filesystem and CSV reader, and
the wall clock) are modelled as fields of an explicit environment `Env`; the
repository's own control flow, state updates, validation, deduplication,
ranking and formatting are translated statement by statement. Machine floats
are modelled as rationals.
-/

namespace ServerKlinik

/-- The four values of `initialization_status["status"]` in
`DrugPredictor.__init__` and the transitions of `_initialize_sync`. -/
inductive Status
  | notStarted
  | inProgress
  | completed
  | failed
deriving DecidableEq

/-- The `initialization_status` dict of `DrugPredictor.__init__`:
status, error, progress, message, start_time, end_time. Timestamps are
opaque naturals. -/
structure InitState where
  status : Status
  error : Option String
  progress : ℕ
  message : String
  startTime : Option ℕ
  endTime : Option ℕ
deriving DecidableEq

/-- One row of the drug CSV: its `Nama` and `DeskripsiObat` cells. -/
structure DrugRow where
  nama : String
  deskripsi : String
deriving DecidableEq

/-- A pandas DataFrame as the code uses it: a column-name list and the rows
(only the two required columns carry data the code reads). -/
structure DataFrame where
  columns : List String
  rows : List DrugRow
deriving DecidableEq

/-- The mutable fields of a `DrugPredictor` instance: the status dict, whether
`self.model` has been assigned, `self.df_drugs` and `self.drug_embeddings`. -/
structure PredictorState where
  init : InitState
  modelLoaded : Bool
  dfDrugs : Option DataFrame
  drugEmbeddings : Option (List (List ℚ))
deriving DecidableEq

/-- The state built by `DrugPredictor.__init__`. -/
def initialPredictorState : PredictorState :=
  { init :=
      { status := Status.notStarted,
        error := none,
        progress := 0,
        message := "",
        startTime := none,
        endTime := none },
    modelLoaded := false,
    dfDrugs := none,
    drugEmbeddings := none }

/-- The external collaborators of one run, modelled as data: the configured
token, whether each library call raises (and with what message), the CSV file,
the embedding function, sklearn's cosine similarity, and the two clock reads
that can end up in the status dict. -/
structure Env where
  hfToken : Option String
  loginError : Option String
  modelError : Option String
  csvExists : Bool
  csvPath : String
  csv : DataFrame
  encodeError : Option String
  encode : String → List ℚ
  cosSim : List ℚ → List ℚ → ℚ
  startClock : ℕ
  endClock : ℕ

/-- Mirrors `DrugPredictor._get_confidence_level`: thresholds 0.8, 0.6, 0.4
on the similarity score. -/
def getConfidenceLevel (score : ℚ) : String :=
  if score ≥ 0.8 then "high"
  else if score ≥ 0.6 then "medium"
  else if score ≥ 0.4 then "low"
  else "very_low"

/-- The required-columns list of `_load_drug_database`. -/
def requiredColumns : List String := ["Nama", "DeskripsiObat"]

/-- The `ObatLengkap` column: `Nama + " - " + DeskripsiObat`. -/
def obatLengkap (r : DrugRow) : String := r.nama ++ " - " ++ r.deskripsi

/-- Pandas `drop_duplicates(subset=["ObatLengkap"])`: keep the first
occurrence of each key, preserve order otherwise. `seen` accumulates the
keys already kept. -/
def dedupRows : List DrugRow → List String → List DrugRow
  | [], _ => []
  | r :: rs, seen =>
    if obatLengkap r ∈ seen then dedupRows rs seen
    else r :: dedupRows rs (obatLengkap r :: seen)

/-- The columns of `requiredColumns` missing from the frame. -/
def missingColumns (df : DataFrame) : List String :=
  requiredColumns.filter (fun c => ¬ df.columns.contains c)

/-- The processing step of `_load_drug_database`: add the `ObatLengkap`
column and drop duplicate rows by it. -/
def processedFrame (df : DataFrame) : DataFrame :=
  { columns := df.columns ++ ["ObatLengkap"],
    rows := dedupRows df.rows [] }

/-- Mirrors `DrugPredictor._load_drug_database`: raise if the CSV path does
not exist, assign `self.df_drugs` from the CSV, raise if required columns are
missing, else add the `ObatLengkap` column and deduplicate. Both raises are
caught by the function's own handler, which sets status and error (and
nothing else) and returns False. -/
def loadDrugDatabase (env : Env) (st : PredictorState) : Bool × PredictorState :=
  if ¬ env.csvExists then
    (false, { st with init := { st.init with
        status := Status.failed,
        error := some ("Error loading drug database: CSV file not found: " ++ env.csvPath) } })
  else
    let df := env.csv
    let st1 := { st with dfDrugs := some df }
    if missingColumns df ≠ [] then
      (false, { st1 with init := { st1.init with
          status := Status.failed,
          error := some ("Error loading drug database: Missing columns: " ++
            String.intercalate ", " (missingColumns df)) } })
    else
      (true, { st1 with dfDrugs := some (processedFrame df) })

/-- Mirrors `DrugPredictor._generate_embeddings`: read the `ObatLengkap`
texts, call `model.encode` on them; on a raise, set status and error (and
nothing else) and return False. -/
def generateEmbeddings (env : Env) (st : PredictorState) : Bool × PredictorState :=
  match st.dfDrugs with
  | none =>
    (false, { st with init := { st.init with
        status := Status.failed,
        error := some "Error generating embeddings: drug database is not loaded" } })
  | some df =>
    match env.encodeError with
    | some m =>
      (false, { st with init := { st.init with
          status := Status.failed,
          error := some ("Error generating embeddings: " ++ m) } })
    | none =>
      (true, { st with drugEmbeddings := some ((df.rows.map obatLengkap).map env.encode) })

/-- The outcome of step 1 of `_initialize_sync`: when a token is configured,
the login call may raise (with the raised message); without a token the step
is skipped and cannot fail. -/
def loginResult (env : Env) : Option String :=
  if env.hfToken.isSome then env.loginError else none

/-- The handler at the bottom of `_initialize_sync`: status failed, the
wrapped message in both error and message, end_time stamped. -/
def failRun (st : PredictorState) (m : String) (clk : ℕ) : PredictorState :=
  { st with init := { st.init with
      status := Status.failed,
      error := some ("Initialization failed: " ++ m),
      message := "Initialization failed: " ++ m,
      endTime := some clk } }

/-- Mirrors `DrugPredictor._initialize_sync`: return True at once when already
completed, False when a run is marked in progress; otherwise mark the run
started (progress 0, start_time stamped, error cleared — end_time is NOT
reset), then step through login, model load, catalog load and embedding
generation, and on full success publish status completed / progress 100 with
end_time stamped. A raise from login or model load is caught here by
`failRun`; the two helpers handle their own raises and make the run return
False without touching message or end_time. -/
def initializeSync (env : Env) (st0 : PredictorState) : Bool × PredictorState :=
  if st0.init.status = Status.completed then (true, st0)
  else if st0.init.status = Status.inProgress then (false, st0)
  else
    let st := { st0 with init := { st0.init with
        status := Status.inProgress,
        progress := 0,
        message := "Starting initialization...",
        startTime := some env.startClock,
        error := none } }
    match loginResult env with
    | some m => (false, failRun st m env.endClock)
    | none =>
      let st := if env.hfToken.isSome then
          { st with init := { st.init with
              progress := 10,
              message := "Logged in to Hugging Face" } }
        else st
      let st := { st with init := { st.init with
          progress := 20,
          message := "Loading model from Hugging Face..." } }
      match env.modelError with
      | some m => (false, failRun st m env.endClock)
      | none =>
        let st := { st with
            modelLoaded := true,
            init := { st.init with
              progress := 50,
              message := "Model loaded successfully" } }
        let st := { st with init := { st.init with
            progress := 60,
            message := "Loading drug database..." } }
        match loadDrugDatabase env st with
        | (false, st1) => (false, st1)
        | (true, st1) =>
          let st2 := { st1 with init := { st1.init with
              progress := 80,
              message := "Generating embeddings..." } }
          match generateEmbeddings env st2 with
          | (false, st3) => (false, st3)
          | (true, st3) =>
            (true, { st3 with init := { st3.init with
                status := Status.completed,
                progress := 100,
                message := "Initialization completed successfully",
                error := none,
                endTime := some env.endClock } })

/-- Mirrors `DrugPredictor.is_ready`. -/
def isReady (st : PredictorState) : Bool := st.init.status = Status.completed

/-- The JSON value supplied for `top_k` in a request body, as the request
layer's `isinstance(top_k, int)` test classifies it. -/
inductive TopKValue
  | int (i : ℤ)
  | nonInt
deriving DecidableEq

/-- MAX_TOP_K and DEFAULT_TOP_K of `Config`. -/
structure ApiConfig where
  maxTopK : ℤ
  defaultTopK : ℤ
deriving DecidableEq

/-- The defaults of src/config.py: MAX_TOP_K = 20, DEFAULT_TOP_K = 5. -/
def defaultApiConfig : ApiConfig := { maxTopK := 20, defaultTopK := 5 }

/-- Mirrors the request layer's top-k handling in the predict route:
`data.get("top_k", DEFAULT_TOP_K)`, then substitute DEFAULT_TOP_K when the
value is not an int, is below 1 or exceeds MAX_TOP_K. -/
def resolveTopK (cfg : ApiConfig) (supplied : Option TopKValue) : ℤ :=
  match supplied.getD (TopKValue.int cfg.defaultTopK) with
  | TopKValue.int i =>
    if i < 1 ∨ cfg.maxTopK < i then cfg.defaultTopK else i
  | TopKValue.nonInt => cfg.defaultTopK

/-- The two typed failures of `DrugPredictor.predict`: the RuntimeError for
an unpublished index and the ValueError for an empty query. -/
inductive PredictError
  | notReady
  | emptyQuery
deriving DecidableEq

/-- One entry of the list `DrugPredictor.predict` returns. -/
structure PredictionResult where
  rank : ℕ
  namaObat : String
  deskripsiObat : String
  similarityScore : ℚ
  confidence : String
deriving DecidableEq

/-- Insert index `i` into an index list sorted ascending by score: `i` goes
before the first index whose score is strictly greater. -/
def insertIdxBy (xs : List ℚ) (i : ℕ) : List ℕ → List ℕ
  | [] => [i]
  | j :: js => if xs.getD i 0 < xs.getD j 0 then i :: j :: js else j :: insertIdxBy xs i js

/-- Model of `np.argsort(similarities)`: the indices `0 .. n-1` sorted by
score ascending, equal scores kept in index order (the stable reading of
argsort; numpy uses insertion sort on arrays this small, which is stable). -/
def argsortAsc (xs : List ℚ) : List ℕ :=
  (List.range xs.length).foldl (fun acc i => insertIdxBy xs i acc) []

/-- Model of `np.argsort(similarities)[::-1][:top_k]` in
`DrugPredictor.predict`. -/
def rankIndices (xs : List ℚ) (topK : ℕ) : List ℕ :=
  (argsortAsc xs).reverse.take topK

/-- The `cosine_similarity(query_embedding, self.drug_embeddings)[0]` row:
one score per stored vector, in storage order. -/
def querySimilarities (env : Env) (st : PredictorState) (query : String) : List ℚ :=
  (st.drugEmbeddings.getD []).map (fun v => env.cosSim (env.encode query) v)

/-- The result-formatting loop of `DrugPredictor.predict`: enumerate the
top indices, rank from 1, and read name, description, score and confidence
for each index. -/
def predictResults (env : Env) (st : PredictorState) (query : String) (topK : ℕ) :
    List PredictionResult :=
  (rankIndices (querySimilarities env st query) topK).enum.map (fun p =>
    { rank := p.1 + 1,
      namaObat := ((st.dfDrugs.getD ⟨[], []⟩).rows.getD p.2 ⟨"", ""⟩).nama,
      deskripsiObat := ((st.dfDrugs.getD ⟨[], []⟩).rows.getD p.2 ⟨"", ""⟩).deskripsi,
      similarityScore := (querySimilarities env st query).getD p.2 0,
      confidence := getConfidenceLevel ((querySimilarities env st query).getD p.2 0) })

/-- Python str.strip(): drop leading and trailing whitespace characters. -/
def pyStrip (s : String) : String :=
  ⟨((s.data.dropWhile Char.isWhitespace).reverse.dropWhile Char.isWhitespace).reverse⟩

/-- Mirrors `DrugPredictor.predict`: RuntimeError unless status is completed,
combine the two texts with one space and strip, ValueError when the result is
empty, else encode the query, score every stored vector, rank and format. -/
def predict (env : Env) (st : PredictorState) (keluhan anamnesa : String) (topK : ℕ) :
    Except PredictError (List PredictionResult) :=
  if st.init.status ≠ Status.completed then Except.error PredictError.notReady
  else if pyStrip (keluhan ++ " " ++ anamnesa) = "" then Except.error PredictError.emptyQuery
  else Except.ok (predictResults env st (pyStrip (keluhan ++ " " ++ anamnesa)) topK)

/-! ## Concrete instances used as witnesses and counterexamples -/

/-- A benign environment: no token, every collaborator call succeeds, the CSV
holds three distinct rows A, B, C. The cosine oracle tells the stored vectors
apart by length and scores them 9/10, 9/10 and 1/2. -/
def envC : Env :=
  { hfToken := none,
    loginError := none,
    modelError := none,
    csvExists := true,
    csvPath := "data/df_obat.csv",
    csv :=
      { columns := ["Nama", "DeskripsiObat"],
        rows := [⟨"A", "descA"⟩, ⟨"B", "descB"⟩, ⟨"C", "descC"⟩] },
    encodeError := none,
    encode := fun _ => [1],
    cosSim := fun _ v =>
      if v.length = 1 then mkRat 9 10 else if v.length = 2 then mkRat 9 10 else mkRat 1 2,
    startClock := 0,
    endClock := 7 }

/-- A published three-record index (records A, B, C) whose vectors the
`envC` cosine oracle scores 0.9, 0.9 and 0.5 against any query. -/
def stC : PredictorState :=
  { init :=
      { status := Status.completed,
        error := none,
        progress := 100,
        message := "Initialization completed successfully",
        startTime := some 0,
        endTime := some 7 },
    modelLoaded := true,
    dfDrugs := some
      { columns := ["Nama", "DeskripsiObat", "ObatLengkap"],
        rows := [⟨"A", "descA"⟩, ⟨"B", "descB"⟩, ⟨"C", "descC"⟩] },
    drugEmbeddings := some [[1], [1, 1], [1, 1, 1]] }

/-- The benign environment with a missing CSV file. -/
def envLoadFail : Env := { envC with csvExists := false }

/-- The benign environment where `model.encode` on the catalog raises. -/
def envEmbedFail : Env := { envC with encodeError := some "CUDA error" }

/-- Index `i` is ranked ahead of index `j` in ascending order: strictly
smaller score, or equal score and smaller index. -/
def ascBefore (xs : List ℚ) (i j : ℕ) : Prop :=
  xs.getD i 0 < xs.getD j 0 ∨ (xs.getD i 0 = xs.getD j 0 ∧ i < j)

/-- Index `i` is ranked ahead of index `j` in the served order: strictly
greater score, or equal score and GREATER index (reverse catalog order). -/
def rankedBefore (xs : List ℚ) (i j : ℕ) : Prop :=
  xs.getD j 0 < xs.getD i 0 ∨ (xs.getD j 0 = xs.getD i 0 ∧ j < i)

/-- A state is index-consistent when a completed status implies the catalog
and the embedding matrix are both present and have equal lengths. -/
def IndexConsistent (st : PredictorState) : Prop :=
  st.init.status = Status.completed →
    ∃ df embs, st.dfDrugs = some df ∧ st.drugEmbeddings = some embs ∧
      df.rows.length = embs.length

/-- Whether an observed status ends the polling loop of
`wait_for_initialization`. -/
def isTerminal : Status → Bool
  | Status.completed => true
  | Status.failed => true
  | Status.notStarted => false
  | Status.inProgress => false

/-- Mirrors the while-loop of `DrugPredictor.wait_for_initialization`: one
status read per one-second sleep; `f` is the status observed at each poll,
`fuel` the remaining whole seconds before the timeout, `triggered` whether
the loop has already requested a background initialization itself (it does so
at every poll that observes not_started). Returns the boolean result paired
with the final `triggered` flag. -/
def waitLoop (f : ℕ → Status) : ℕ → ℕ → Bool → Bool × Bool
  | 0, _, triggered => (false, triggered)
  | fuel + 1, t, triggered =>
    match f t with
    | Status.completed => (true, triggered)
    | Status.failed => (false, triggered)
    | Status.notStarted => waitLoop f fuel (t + 1) true
    | Status.inProgress => waitLoop f fuel (t + 1) triggered

/-- Mirrors `DrugPredictor.wait_for_initialization` with effective timeout
`timeout` whole seconds: polls at times 0, 1, 2, ... while elapsed time is
below the timeout. -/
def waitForInitialization (f : ℕ → Status) (timeout : ℕ) : Bool × Bool :=
  waitLoop f timeout 0 false

/-- The claim's own description of WaitUntilReady, written independently of
the loop: find the first terminal poll before the timeout; the result is
true exactly when that poll observed completed (false on failed, false when
no poll is terminal, i.e. timeout); and a background initialization was
triggered exactly when some poll strictly before the stopping point observed
not_started. -/
def specWaitUntilReady (f : ℕ → Status) (timeout : ℕ) : Bool × Bool :=
  match (List.range timeout).find? (fun t => isTerminal (f t)) with
  | some t =>
    (decide (f t = Status.completed),
      (List.range t).any (fun j => decide (f j = Status.notStarted)))
  | none =>
    (false, (List.range timeout).any (fun j => decide (f j = Status.notStarted)))

/-- The two shapes `DrugPredictor.get_stats` returns: the error-marker dict
when `self.df_drugs is None`, else the statistics dict (total drugs, column
names, embedding shape or None, model name, csv path). -/
inductive StatsResult
  | err (message : String)
  | ok (totalDrugs : ℕ) (columns : List String) (embeddingShape : Option (ℕ × ℕ))
      (modelName : String) (csvPath : String)
deriving DecidableEq

/-- Mirrors `DrugPredictor.get_stats`: gate only on the presence of the
catalog dataframe; the embedding shape is read defensively
(`... if self.drug_embeddings is not None else None`). -/
def getStats (modelName csvPath : String) (st : PredictorState) : StatsResult :=
  match st.dfDrugs with
  | none => StatsResult.err "Database not loaded"
  | some df =>
    StatsResult.ok df.rows.length df.columns
      (st.drugEmbeddings.map (fun e => (e.length, (e.headD []).length)))
      modelName csvPath

/-! ## Ranking order (claim C1) -/

theorem mem_insertIdxBy (xs : List ℚ) (i : ℕ) :
    ∀ (l : List ℕ) (j : ℕ), j ∈ insertIdxBy xs i l ↔ j = i ∨ j ∈ l := by
  intro l
  induction l with
  | nil => intro j; simp [insertIdxBy]
  | cons k ks ih =>
    intro j
    unfold insertIdxBy
    by_cases h : xs.getD i 0 < xs.getD k 0
    · rw [if_pos h]
      simp only [List.mem_cons]
    · rw [if_neg h]
      simp only [List.mem_cons, ih j]
      tauto

theorem pairwise_insertIdxBy (xs : List ℚ) (i : ℕ) :
    ∀ l : List ℕ, l.Pairwise (ascBefore xs) → (∀ j ∈ l, j < i) →
      (insertIdxBy xs i l).Pairwise (ascBefore xs) := by
  intro l
  induction l with
  | nil => intro _ _; simp [insertIdxBy]
  | cons k ks ih =>
    intro hl hlt
    obtain ⟨hk, hks⟩ := List.pairwise_cons.mp hl
    unfold insertIdxBy
    split
    case isTrue h =>
      refine List.pairwise_cons.mpr ⟨?_, hl⟩
      intro j hj
      rcases List.mem_cons.mp hj with rfl | hj'
      · exact Or.inl h
      · rcases hk j hj' with h' | ⟨h', _⟩
        · exact Or.inl (lt_trans h h')
        · exact Or.inl (h' ▸ h)
    case isFalse h =>
      refine List.pairwise_cons.mpr ⟨?_, ?_⟩
      · intro j hj
        rcases (mem_insertIdxBy xs i ks j).mp hj with rfl | hj'
        · rcases lt_or_eq_of_le (not_lt.mp h) with h' | h'
          · exact Or.inl h'
          · exact Or.inr ⟨h', hlt k (List.mem_cons_self k ks)⟩
        · exact hk j hj'
      · exact ih hks (fun j hj => hlt j (List.mem_cons_of_mem k hj))

theorem argsortAsc_pairwise (xs : List ℚ) :
    (argsortAsc xs).Pairwise (ascBefore xs) := by
  suffices h : ∀ (l acc : List ℕ), acc.Pairwise (ascBefore xs) →
      (∀ j ∈ acc, ∀ i ∈ l, j < i) → l.Pairwise (· < ·) →
      (l.foldl (fun a i => insertIdxBy xs i a) acc).Pairwise (ascBefore xs) by
    exact h (List.range xs.length) [] (List.Pairwise.nil)
      (by intro j hj; simp at hj) (List.pairwise_lt_range xs.length)
  intro l
  induction l with
  | nil =>
    intro acc hacc _ _
    simpa using hacc
  | cons i l' ih =>
    intro acc hacc hsep hl
    obtain ⟨hi, hl'⟩ := List.pairwise_cons.mp hl
    simp only [List.foldl_cons]
    apply ih
    · exact pairwise_insertIdxBy xs i acc hacc
        (fun j hj => hsep j hj i (List.mem_cons_self i l'))
    · intro j hj i' hi'
      rcases (mem_insertIdxBy xs i acc j).mp hj with rfl | hmem
      · exact hi i' hi'
      · exact hsep j hmem i' (List.mem_cons_of_mem i hi')
    · exact hl'

theorem rankIndices_pairwise (xs : List ℚ) (k : ℕ) :
    (rankIndices xs k).Pairwise (rankedBefore xs) := by
  unfold rankIndices
  refine List.Pairwise.sublist (List.take_sublist k (argsortAsc xs).reverse) ?_
  rw [List.pairwise_reverse]
  refine (argsortAsc_pairwise xs).imp ?_
  intro a b hab
  rcases hab with h | ⟨h, h'⟩
  · exact Or.inl h
  · exact Or.inr ⟨h, h'⟩

/-- C1 (amended): when the index is published and the combined query is
nonempty, `predict` returns results sorted by similarity descending, but ties
between equal scores are broken by REVERSE catalog order (greater index
first), not first-seen-first: reversing a stable ascending argsort reverses
the relative order of equal elements. -/
theorem predict_ranking_amended (env : Env) (st : PredictorState)
    (keluhan anamnesa : String) (topK : ℕ)
    (hready : st.init.status = Status.completed)
    (hquery : pyStrip (keluhan ++ " " ++ anamnesa) ≠ "") :
    predict env st keluhan anamnesa topK =
      Except.ok (predictResults env st (pyStrip (keluhan ++ " " ++ anamnesa)) topK) ∧
    (predictResults env st (pyStrip (keluhan ++ " " ++ anamnesa)) topK).Pairwise
      (fun p q => q.similarityScore ≤ p.similarityScore) ∧
    (rankIndices (querySimilarities env st (pyStrip (keluhan ++ " " ++ anamnesa))) topK).Pairwise
      (rankedBefore (querySimilarities env st (pyStrip (keluhan ++ " " ++ anamnesa)))) := by
  refine ⟨?_, ?_, rankIndices_pairwise _ _⟩
  · unfold predict
    rw [if_neg (not_not_intro hready), if_neg hquery]
  · set xs := querySimilarities env st (pyStrip (keluhan ++ " " ++ anamnesa)) with hxs
    have hidx := rankIndices_pairwise xs topK
    have henum : ((rankIndices xs topK).enum).Pairwise
        (fun a b => rankedBefore xs a.2 b.2) := by
      refine List.pairwise_map.mp ?_
      rw [List.enum_map_snd]
      exact hidx
    unfold predictResults
    rw [← hxs]
    refine List.pairwise_map.mpr (henum.imp ?_)
    intro a b hab
    rcases hab with h | ⟨h, _⟩
    · exact le_of_lt h
    · exact le_of_eq h

/-- C1 counterexample: for the published catalog [A, B, C] with similarity
scores 0.9, 0.9, 0.5 and topK = 2, the code returns [B, A] — the two tied
records in reverse catalog order — not [A, B] as the claim states. -/
theorem predict_tie_order_counterexample :
    (predict envC stC "q" "" 2).toOption.map (List.map (fun r => r.namaObat)) =
      some ["B", "A"] ∧
    (some ["B", "A"] : Option (List String)) ≠ some ["A", "B"] := by
  constructor
  · decide
  · decide

/-- Witness for the amended ranking claim at a concrete ready state and
nonempty query. -/
theorem predict_ranking_amended_witness :
    predict envC stC "q" "" 2 =
      Except.ok (predictResults envC stC (pyStrip ("q" ++ " " ++ "")) 2) :=
  (predict_ranking_amended envC stC "q" "" 2 rfl (by decide)).1

/-! ## Predict preconditions (claim C5) -/

/-- C5: `predict` fails with the NotReady error exactly when status is not
completed; when ready, it fails with the empty-query error exactly when the
space-joined, trimmed concatenation of the two texts is empty. Concretely,
on a published index the query ("", "") is rejected as empty while
("fever", "") succeeds. -/
theorem predict_precondition_spec (env : Env) (st : PredictorState)
    (keluhan anamnesa : String) (topK : ℕ) :
    (predict env st keluhan anamnesa topK = Except.error PredictError.notReady ↔
      st.init.status ≠ Status.completed) ∧
    (predict env st keluhan anamnesa topK = Except.error PredictError.emptyQuery ↔
      st.init.status = Status.completed ∧ pyStrip (keluhan ++ " " ++ anamnesa) = "") ∧
    predict envC stC "" "" 5 = Except.error PredictError.emptyQuery ∧
    (predict envC stC "fever" "" 5).toOption.isSome = true := by
  refine ⟨?_, ?_, by rfl, by rfl⟩
  · unfold predict
    split_ifs with h1 h2 <;> simp_all
  · unfold predict
    split_ifs with h1 h2 <;> simp_all

/-! ## Claims C2 and C7 -/

/-- C2: the confidence label is exactly high for score ≥ 0.8, medium for
0.6 ≤ score < 0.8, low for 0.4 ≤ score < 0.6 and very_low below 0.4; in
particular 0.8 ↦ high, 0.79999 ↦ medium, 0.6 ↦ medium, 0.4 ↦ low,
0.39999 ↦ very_low, 0.0 ↦ very_low. -/
theorem confidence_level_spec (s : ℚ) :
    (getConfidenceLevel s = "high" ↔ (0.8 : ℚ) ≤ s) ∧
    (getConfidenceLevel s = "medium" ↔ (0.6 : ℚ) ≤ s ∧ s < 0.8) ∧
    (getConfidenceLevel s = "low" ↔ (0.4 : ℚ) ≤ s ∧ s < 0.6) ∧
    (getConfidenceLevel s = "very_low" ↔ s < (0.4 : ℚ)) ∧
    getConfidenceLevel 0.8 = "high" ∧
    getConfidenceLevel 0.79999 = "medium" ∧
    getConfidenceLevel 0.6 = "medium" ∧
    getConfidenceLevel 0.4 = "low" ∧
    getConfidenceLevel 0.39999 = "very_low" ∧
    getConfidenceLevel 0 = "very_low" := by
  have main : (getConfidenceLevel s = "high" ↔ (0.8 : ℚ) ≤ s) ∧
      (getConfidenceLevel s = "medium" ↔ (0.6 : ℚ) ≤ s ∧ s < 0.8) ∧
      (getConfidenceLevel s = "low" ↔ (0.4 : ℚ) ≤ s ∧ s < 0.6) ∧
      (getConfidenceLevel s = "very_low" ↔ s < (0.4 : ℚ)) := by
    rcases le_or_lt (0.8 : ℚ) s with h8 | h8
    · have hval : getConfidenceLevel s = "high" := by
        unfold getConfidenceLevel
        rw [if_pos h8]
      rw [hval]
      exact ⟨iff_of_true rfl h8,
        iff_of_false (by decide) (fun hx => by linarith [hx.2]),
        iff_of_false (by decide) (fun hx => by linarith [hx.2]),
        iff_of_false (by decide) (by push_neg; linarith)⟩
    · rcases le_or_lt (0.6 : ℚ) s with h6 | h6
      · have hval : getConfidenceLevel s = "medium" := by
          unfold getConfidenceLevel
          rw [if_neg (by push_neg; linarith), if_pos h6]
        rw [hval]
        exact ⟨iff_of_false (by decide) (by push_neg; linarith),
          iff_of_true rfl ⟨h6, h8⟩,
          iff_of_false (by decide) (fun hx => by linarith [hx.2]),
          iff_of_false (by decide) (by push_neg; linarith)⟩
      · rcases le_or_lt (0.4 : ℚ) s with h4 | h4
        · have hval : getConfidenceLevel s = "low" := by
            unfold getConfidenceLevel
            rw [if_neg (by push_neg; linarith), if_neg (by push_neg; linarith), if_pos h4]
          rw [hval]
          exact ⟨iff_of_false (by decide) (by push_neg; linarith),
            iff_of_false (by decide) (fun hx => by linarith [hx.1]),
            iff_of_true rfl ⟨h4, h6⟩,
            iff_of_false (by decide) (by push_neg; linarith)⟩
        · have hval : getConfidenceLevel s = "very_low" := by
            unfold getConfidenceLevel
            rw [if_neg (by push_neg; linarith), if_neg (by push_neg; linarith),
              if_neg (by push_neg; linarith)]
          rw [hval]
          exact ⟨iff_of_false (by decide) (by push_neg; linarith),
            iff_of_false (by decide) (fun hx => by linarith [hx.1]),
            iff_of_false (by decide) (fun hx => by linarith [hx.1]),
            iff_of_true rfl h4⟩
  refine ⟨main.1, main.2.1, main.2.2.1, main.2.2.2, ?_, ?_, ?_, ?_, ?_, ?_⟩
  all_goals unfold getConfidenceLevel
  all_goals norm_num

/-- C7: the request layer substitutes DEFAULT_TOP_K exactly when the supplied
top_k is not an integer or lies outside [1, MAX_TOP_K], and passes it through
unchanged otherwise; with the default configuration, 0, -5 and
MAX_TOP_K + 1 = 21 all fall back to the default 5. -/
theorem top_k_clamping_spec (cfg : ApiConfig) (i : ℤ) :
    (resolveTopK cfg (some (TopKValue.int i)) =
      if 1 ≤ i ∧ i ≤ cfg.maxTopK then i else cfg.defaultTopK) ∧
    resolveTopK cfg (some TopKValue.nonInt) = cfg.defaultTopK ∧
    resolveTopK cfg none = cfg.defaultTopK ∧
    resolveTopK defaultApiConfig (some (TopKValue.int 0)) = 5 ∧
    resolveTopK defaultApiConfig (some (TopKValue.int (-5))) = 5 ∧
    resolveTopK defaultApiConfig (some (TopKValue.int 21)) = 5 := by
  refine ⟨?_, rfl, ?_, by decide, by decide, by decide⟩
  · unfold resolveTopK
    simp only [Option.getD_some]
    split_ifs with h1 h2 <;> first | rfl | omega
  · unfold resolveTopK
    simp only [Option.getD_none]
    split_ifs with h <;> rfl

/-! ## Initialization state machine (claims C3, C4, C6) -/

theorem loadDrugDatabase_false (env : Env) (st st1 : PredictorState)
    (h : loadDrugDatabase env st = (false, st1)) :
    st1.init.status = Status.failed ∧ st1.init.error.isSome = true ∧
      st1.init.endTime = st.init.endTime ∧ st1.init.message = st.init.message ∧
      st1.drugEmbeddings = st.drugEmbeddings := by
  simp only [loadDrugDatabase] at h
  split_ifs at h with hcsv hmiss <;>
    first
      | (injection h with h1 h2;
         first
           | (subst h2; exact ⟨rfl, rfl, rfl, rfl, rfl⟩)
           | cases h1)
      | (subst h; exact ⟨rfl, rfl, rfl, rfl, rfl⟩)
      | simp_all

theorem loadDrugDatabase_true (env : Env) (st st1 : PredictorState)
    (h : loadDrugDatabase env st = (true, st1)) :
    st1 = { st with dfDrugs := some (processedFrame env.csv) } := by
  simp only [loadDrugDatabase] at h
  split_ifs at h with hcsv hmiss <;>
    first
      | (injection h with h1 h2;
         first
           | (subst h2; rfl)
           | cases h1)
      | (subst h; rfl)
      | simp_all

theorem generateEmbeddings_false (env : Env) (st st1 : PredictorState)
    (h : generateEmbeddings env st = (false, st1)) :
    st1.init.status = Status.failed ∧ st1.init.error.isSome = true ∧
      st1.init.endTime = st.init.endTime ∧ st1.init.message = st.init.message := by
  unfold generateEmbeddings at h
  split at h <;>
    first
      | (injection h with h1 h2;
         first
           | (subst h2; exact ⟨rfl, rfl, rfl, rfl⟩)
           | cases h1)
      | (split at h <;>
          first
            | (injection h with h1 h2;
               first
                 | (subst h2; exact ⟨rfl, rfl, rfl, rfl⟩)
                 | cases h1)
            | simp_all)
      | simp_all

theorem generateEmbeddings_true (env : Env) (st st1 : PredictorState)
    (h : generateEmbeddings env st = (true, st1)) :
    ∃ df, st.dfDrugs = some df ∧
      st1 = { st with drugEmbeddings := some ((df.rows.map obatLengkap).map env.encode) } := by
  unfold generateEmbeddings at h
  split at h
  next hdf =>
    injection h with h1 h2
    cases h1
  next df hdf =>
    split at h
    next m hm =>
      injection h with h1 h2
      cases h1
    next hm =>
      injection h with h1 h2
      subst h2
      exact ⟨df, hdf, rfl⟩

/-- C6: once the state is completed, a further synchronous initialization
request returns success immediately and leaves the state untouched — no
catalog reload, no re-encoding, no transition out of completed. -/
theorem initialize_idempotent_after_completed (env : Env) (st : PredictorState)
    (h : st.init.status = Status.completed) :
    initializeSync env st = (true, st) := by
  unfold initializeSync
  rw [if_pos h]

/-- Witness: the idempotence theorem applied to a concrete completed state. -/
theorem initialize_idempotent_after_completed_witness :
    initializeSync envC stC = (true, stC) :=
  initialize_idempotent_after_completed envC stC rfl

/-- C4: index consistency holds initially and is preserved by every
initialization run: whenever the status reads completed, the published
record count equals the vector count. -/
theorem completed_index_consistent (env : Env) (st : PredictorState)
    (h : IndexConsistent st) :
    IndexConsistent initialPredictorState ∧ IndexConsistent (initializeSync env st).2 := by
  constructor
  · intro hc
    exact absurd hc (by decide)
  · by_cases hcomp : st.init.status = Status.completed
    · have heq : initializeSync env st = (true, st) := by
        unfold initializeSync
        rw [if_pos hcomp]
      rw [heq]
      exact h
    · by_cases hprog : st.init.status = Status.inProgress
      · have heq : initializeSync env st = (false, st) := by
          unfold initializeSync
          rw [if_neg hcomp, if_pos hprog]
        rw [heq]
        exact h
      · simp only [initializeSync]
        rw [if_neg hcomp, if_neg hprog]
        split
        · intro hc
          exact absurd (show Status.failed = Status.completed from hc) (by decide)
        · split
          · intro hc
            exact absurd (show Status.failed = Status.completed from hc) (by decide)
          · split
            next st1 hload =>
              intro hc
              exact absurd ((loadDrugDatabase_false env _ st1 hload).1.symm.trans hc) (by decide)
            next st1 hload =>
              split
              next st3 hgen =>
                intro hc
                exact absurd ((generateEmbeddings_false env _ st3 hgen).1.symm.trans hc) (by decide)
              next st3 hgen =>
                intro _
                obtain ⟨df, hdf, rfl⟩ := generateEmbeddings_true env _ st3 hgen
                exact ⟨df, (df.rows.map obatLengkap).map env.encode, hdf, rfl, by simp⟩

/-- Witness: consistency of the state reached by a fully successful build
from the initial state. -/
theorem completed_index_consistent_witness :
    IndexConsistent (initializeSync envC initialPredictorState).2 :=
  (completed_index_consistent envC initialPredictorState
    (fun hc => absurd hc (by decide))).2

theorem loadDrugDatabase_csv_missing (env : Env) (st : PredictorState)
    (hc : env.csvExists = false) :
    loadDrugDatabase env st =
      (false, { st with init := { st.init with
          status := Status.failed,
          error := some ("Error loading drug database: CSV file not found: " ++
            env.csvPath) } }) := by
  unfold loadDrugDatabase
  rw [if_pos (by simp [hc])]

theorem loadDrugDatabase_cols_missing (env : Env) (st : PredictorState)
    (hc : env.csvExists = true) (hm : missingColumns env.csv ≠ []) :
    loadDrugDatabase env st =
      (false, { st with
          dfDrugs := some env.csv,
          init := { st.init with
            status := Status.failed,
            error := some ("Error loading drug database: Missing columns: " ++
              String.intercalate ", " (missingColumns env.csv)) } }) := by
  unfold loadDrugDatabase
  rw [if_neg (by simp [hc])]
  dsimp only
  rw [if_pos hm]

theorem loadDrugDatabase_ok (env : Env) (st : PredictorState)
    (hc : env.csvExists = true) (hm : missingColumns env.csv = []) :
    loadDrugDatabase env st =
      (true, { st with dfDrugs := some (processedFrame env.csv) }) := by
  unfold loadDrugDatabase
  rw [if_neg (by simp [hc])]
  dsimp only
  rw [if_neg (fun hne => hne hm)]

theorem generateEmbeddings_encode_fail (env : Env) (st : PredictorState)
    (df : DataFrame) (m : String)
    (hdf : st.dfDrugs = some df) (hm : env.encodeError = some m) :
    generateEmbeddings env st =
      (false, { st with init := { st.init with
          status := Status.failed,
          error := some ("Error generating embeddings: " ++ m) } }) := by
  unfold generateEmbeddings
  rw [hdf, hm]

theorem loadDrugDatabase_true_conditions (env : Env) (st st1 : PredictorState)
    (h : loadDrugDatabase env st = (true, st1)) :
    env.csvExists = true ∧ missingColumns env.csv = [] := by
  by_cases hc : env.csvExists = true
  · by_cases hm : missingColumns env.csv = []
    · exact ⟨hc, hm⟩
    · rw [loadDrugDatabase_cols_missing env st hc hm] at h
      injection h with hb _
      cases hb
  · have hc' : env.csvExists = false := by
      cases hcv : env.csvExists
      · rfl
      · exact absurd hcv hc
    rw [loadDrugDatabase_csv_missing env st hc'] at h
    injection h with hb _
    cases hb

theorem generateEmbeddings_true_conditions (env : Env) (st st1 : PredictorState)
    (h : generateEmbeddings env st = (true, st1)) :
    env.encodeError = none := by
  unfold generateEmbeddings at h
  split at h
  next hdf =>
    injection h with hb _
    cases hb
  next df hdf =>
    split at h
    next m hm =>
      injection h with hb _
      cases hb
    next hm => exact hm

/-- C3 (amended): when a run actually starts, every failing build ends with
status failed and the failure description recorded in error, observable only
through the returned boolean and state (initializeSync is a total Lean
function, so nothing is raised); the end timestamp, however, is stamped only
for failures raised inside `_initialize_sync` itself (authentication and
model load) — a catalog-load/validation or embedding failure leaves
end_time exactly as it was before the run. -/
theorem initialize_failure_handling_amended (env : Env) (st : PredictorState)
    (hcomp : st.init.status ≠ Status.completed)
    (hprog : st.init.status ≠ Status.inProgress) :
    ((initializeSync env st).1 = false →
      (initializeSync env st).2.init.status = Status.failed ∧
      ((initializeSync env st).2.init.error).isSome = true) ∧
    (∀ m, env.hfToken.isSome = true → env.loginError = some m →
      (initializeSync env st).1 = false ∧
      (initializeSync env st).2.init.endTime = some env.endClock) ∧
    (∀ m, loginResult env = none → env.modelError = some m →
      (initializeSync env st).1 = false ∧
      (initializeSync env st).2.init.endTime = some env.endClock) ∧
    (loginResult env = none → env.modelError = none →
      env.csvExists = false ∨ missingColumns env.csv ≠ [] →
      (initializeSync env st).1 = false ∧
      (initializeSync env st).2.init.status = Status.failed ∧
      (initializeSync env st).2.init.endTime = st.init.endTime) ∧
    (∀ m, loginResult env = none → env.modelError = none →
      env.csvExists = true → missingColumns env.csv = [] → env.encodeError = some m →
      (initializeSync env st).1 = false ∧
      (initializeSync env st).2.init.status = Status.failed ∧
      (initializeSync env st).2.init.endTime = st.init.endTime) := by
  refine ⟨?_, ?_, ?_, ?_, ?_⟩
  · simp only [initializeSync]
    rw [if_neg hcomp, if_neg hprog]
    split
    · intro _
      exact ⟨rfl, rfl⟩
    · split
      · intro _
        exact ⟨rfl, rfl⟩
      · split
        next st1 hload =>
          intro _
          obtain ⟨hs, he, -, -, -⟩ := loadDrugDatabase_false env _ st1 hload
          exact ⟨hs, he⟩
        next st1 hload =>
          split
          next st3 hgen =>
            intro _
            obtain ⟨hs, he, -, -⟩ := generateEmbeddings_false env _ st3 hgen
            exact ⟨hs, he⟩
          next st3 hgen =>
            intro hfalse
            simp at hfalse
  · intro m htok hlog
    have hlr : loginResult env = some m := by
      unfold loginResult
      rw [if_pos htok]
      exact hlog
    simp only [initializeSync]
    rw [if_neg hcomp, if_neg hprog, hlr]
    exact ⟨rfl, rfl⟩
  · intro m hlr hmod
    simp only [initializeSync]
    rw [if_neg hcomp, if_neg hprog, hlr, hmod]
    exact ⟨rfl, rfl⟩
  · intro hlr hmod hbad
    simp only [initializeSync]
    rw [if_neg hcomp, if_neg hprog, hlr, hmod]
    dsimp only
    split
    next st1 hload =>
      obtain ⟨hs, -, het, -, -⟩ := loadDrugDatabase_false env _ st1 hload
      refine ⟨rfl, hs, ?_⟩
      rw [het]
      split <;> rfl
    next st1 hload =>
      obtain ⟨hc, hm⟩ := loadDrugDatabase_true_conditions env _ st1 hload
      rcases hbad with hcsv | hmiss
      · rw [hc] at hcsv
        cases hcsv
      · exact absurd hm hmiss
  · intro m hlr hmod hcsv hmiss hembed
    simp only [initializeSync]
    rw [if_neg hcomp, if_neg hprog, hlr, hmod]
    dsimp only
    split
    next st1 hload =>
      rw [loadDrugDatabase_ok env _ hcsv hmiss] at hload
      injection hload with hb _
      cases hb
    next st1 hload =>
      have hst1 := loadDrugDatabase_true env _ st1 hload
      subst hst1
      split
      next st3 hgen =>
        obtain ⟨hs, -, het, -⟩ := generateEmbeddings_false env _ st3 hgen
        refine ⟨rfl, hs, ?_⟩
        rw [het]
        split <;> rfl
      next st3 hgen =>
        have hnone := generateEmbeddings_true_conditions env _ st3 hgen
        rw [hnone] at hembed
        cases hembed

/-- C3 counterexample: starting a build from the fresh state against a
missing CSV file ends with status failed and the error recorded, yet
end_time is still unset — the claim that every failure sets the end
timestamp is false. -/
theorem initialize_failure_endtime_counterexample :
    (initializeSync envLoadFail initialPredictorState).1 = false ∧
    (initializeSync envLoadFail initialPredictorState).2.init.status = Status.failed ∧
    ((initializeSync envLoadFail initialPredictorState).2.init.error).isSome = true ∧
    (initializeSync envLoadFail initialPredictorState).2.init.endTime = none :=
  ⟨rfl, rfl, rfl, rfl⟩

/-- Witness: the amended failure-handling theorem applied to the fresh state
and the missing-CSV environment. -/
theorem initialize_failure_handling_amended_witness :
    (initializeSync envLoadFail initialPredictorState).1 = false ∧
    (initializeSync envLoadFail initialPredictorState).2.init.status = Status.failed ∧
    (initializeSync envLoadFail initialPredictorState).2.init.endTime =
      initialPredictorState.init.endTime := by
  have h := initialize_failure_handling_amended envLoadFail initialPredictorState
    (by decide) (by decide)
  exact h.2.2.2.1 rfl rfl (Or.inl rfl)

/-! ## WaitUntilReady (claim C9) -/

theorem waitLoop_eq (f : ℕ → Status) :
    ∀ (fuel t : ℕ) (trig : Bool),
      waitLoop f fuel t trig =
        match (List.range fuel).find? (fun k => isTerminal (f (t + k))) with
        | some k =>
          (decide (f (t + k) = Status.completed),
            trig || (List.range k).any (fun j => decide (f (t + j) = Status.notStarted)))
        | none =>
          (false,
            trig || (List.range fuel).any (fun j => decide (f (t + j) = Status.notStarted))) := by
  intro fuel
  induction fuel with
  | zero =>
    intro t trig
    simp [waitLoop]
  | succ n ih =>
    intro t trig
    have harith' : ∀ k : ℕ, t + 1 + k = t + (k + 1) := fun k => by omega
    cases hft : f t with
    | completed =>
      have hl : waitLoop f (n + 1) t trig = (true, trig) := by
        simp [waitLoop, hft]
      rw [hl, List.range_succ_eq_map, List.find?_cons]
      simp [hft, isTerminal]
    | failed =>
      have hl : waitLoop f (n + 1) t trig = (false, trig) := by
        simp [waitLoop, hft]
      rw [hl, List.range_succ_eq_map, List.find?_cons]
      simp [hft, isTerminal]
    | notStarted =>
      have hl : waitLoop f (n + 1) t trig = waitLoop f n (t + 1) true := by
        simp [waitLoop, hft]
      have ih' := ih (t + 1) true
      simp only [harith'] at ih'
      rw [hl, ih']
      rw [List.range_succ_eq_map, List.find?_cons]
      have hp0 : isTerminal (f (t + 0)) = false := by
        rw [Nat.add_zero, hft]
        decide
      simp only [hp0]
      rw [List.find?_map]
      simp only [Function.comp_def, Nat.succ_eq_add_one]
      cases ho : (List.range n).find? (fun k => isTerminal (f (t + (k + 1)))) with
      | none =>
        simp [ho, List.any_cons, List.any_map, Function.comp_def, Nat.succ_eq_add_one, hft]
      | some k =>
        simp [ho, List.range_succ_eq_map, List.any_cons, List.any_map, Function.comp_def,
          Nat.succ_eq_add_one, hft]
    | inProgress =>
      have hl : waitLoop f (n + 1) t trig = waitLoop f n (t + 1) trig := by
        simp [waitLoop, hft]
      have ih' := ih (t + 1) trig
      simp only [harith'] at ih'
      rw [hl, ih']
      rw [List.range_succ_eq_map, List.find?_cons]
      have hp0 : isTerminal (f (t + 0)) = false := by
        rw [Nat.add_zero, hft]
        decide
      simp only [hp0]
      rw [List.find?_map]
      simp only [Function.comp_def, Nat.succ_eq_add_one]
      cases ho : (List.range n).find? (fun k => isTerminal (f (t + (k + 1)))) with
      | none =>
        simp [ho, List.any_cons, List.any_map, Function.comp_def, Nat.succ_eq_add_one, hft]
      | some k =>
        simp [ho, List.range_succ_eq_map, List.any_cons, List.any_map, Function.comp_def,
          Nat.succ_eq_add_one, hft]

/-- C9: the polling wait equals its specification: it polls once per second,
returns true exactly when the first terminal status observed before the
timeout is completed, false when it is failed, false when the timeout
elapses with no terminal status; and it triggers a background initialization
itself exactly when some poll before the stopping point observes
not_started. -/
theorem wait_for_initialization_spec (f : ℕ → Status) (timeout : ℕ) :
    waitForInitialization f timeout = specWaitUntilReady f timeout := by
  unfold waitForInitialization specWaitUntilReady
  rw [waitLoop_eq f timeout 0 false]
  simp only [Nat.zero_add, Bool.false_or]

/-! ## GetStats (claim C10) -/

/-- C10: get_stats returns the "Database not loaded" marker exactly when no
catalog dataframe has been assigned, and otherwise returns the catalog
statistics (it never fails for any other reason); in particular, after a
build that loaded the catalog and then failed at the embedding step, the
state is failed and yet get_stats reports full statistics of the
never-published catalog. -/
theorem get_stats_spec (modelName csvPath : String) (st : PredictorState) :
    (getStats modelName csvPath st = StatsResult.err "Database not loaded" ↔
      st.dfDrugs = none) ∧
    (∀ df, st.dfDrugs = some df →
      getStats modelName csvPath st =
        StatsResult.ok df.rows.length df.columns
          (st.drugEmbeddings.map (fun e => (e.length, (e.headD []).length)))
          modelName csvPath) ∧
    (initializeSync envEmbedFail initialPredictorState).2.init.status = Status.failed ∧
    getStats modelName csvPath (initializeSync envEmbedFail initialPredictorState).2 =
      StatsResult.ok 3 ["Nama", "DeskripsiObat", "ObatLengkap"] none modelName csvPath := by
  refine ⟨?_, ?_, rfl, rfl⟩
  · unfold getStats
    cases hdf : st.dfDrugs with
    | none => simp
    | some df => simp
  · intro df hdf
    unfold getStats
    rw [hdf]

end ServerKlinik
